import Mathlib

/-!
# Verification of the go-client-langfuse request pipeline

A shallow embedding of the Langfuse Go client library
(`langfuse/config.go`, `langfuse/client.go`, `langfuse/prompts.go`)
together with proofs about its configuration resolver, request executor
and prompt service.  Go strings are Lean `String`s, Go byte slices are
`List Nat` with every element below 256, JSON values are an explicit
inductive type, and the retryable HTTP transport is a function from the
attempt index to that attempt's outcome.
-/

set_option maxRecDepth 4096

namespace Langfuse

/-- The UTF-8 bytes of a string, as natural numbers (Go `[]byte(s)`). -/
def strBytes (s : String) : List Nat :=
  (s.toList.map (fun c => (String.utf8EncodeChar c).map UInt8.toNat)).flatten

theorem strBytes_lt (s : String) : ∀ b ∈ strBytes s, b < 256 := by
  intro b hb
  simp only [strBytes, List.mem_flatten, List.mem_map] at hb
  obtain ⟨l, ⟨c, _, rfl⟩, hbl⟩ := hb
  obtain ⟨u, _, rfl⟩ := List.mem_map.mp hbl
  exact u.val.isLt

/-- The standard base64 alphabet (RFC 4648), as used by Go's
`base64.StdEncoding` in `config.go`. -/
def b64Alphabet : List Char :=
  "ABCDEFGHIJKLMNOPQRSTUVWXYZabcdefghijklmnopqrstuvwxyz0123456789+/".toList

/-- The character the standard encoding assigns to a 6-bit value. -/
def b64Char (n : Nat) : Char := b64Alphabet.getD n 'A'

/-- The 6-bit value of an alphabet character (Go's decode map);
`none` for characters outside the alphabet, including padding. -/
def b64Index (c : Char) : Option Nat :=
  if 'A' ≤ c ∧ c ≤ 'Z' then some (c.toNat - 65)
  else if 'a' ≤ c ∧ c ≤ 'z' then some (c.toNat - 97 + 26)
  else if '0' ≤ c ∧ c ≤ '9' then some (c.toNat - 48 + 52)
  else if c = '+' then some 62
  else if c = '/' then some 63
  else none

/-- Base64 encoding of a byte sequence, three bytes to four characters,
with `=` padding on a final group of one or two bytes. -/
def encodeGroups : List Nat → List Char
  | [] => []
  | [b0] => [b64Char (b0 / 4), b64Char (b0 % 4 * 16), '=', '=']
  | [b0, b1] => [b64Char (b0 / 4), b64Char (b0 % 4 * 16 + b1 / 16), b64Char (b1 % 16 * 4), '=']
  | b0 :: b1 :: b2 :: rest =>
      b64Char (b0 / 4) :: b64Char (b0 % 4 * 16 + b1 / 16) ::
      b64Char (b1 % 16 * 4 + b2 / 64) :: b64Char (b2 % 64) :: encodeGroups rest

/-- Go `base64.StdEncoding.EncodeToString`. -/
def encodeToString (bs : List Nat) : String := String.mk (encodeGroups bs)

/-- Base64 decoding, four characters to three bytes, with padding allowed
only in the final group (Go's default decoder, which does not reject
non-zero trailing bits). -/
def decodeGroups : List Char → Option (List Nat)
  | [] => some []
  | c0 :: c1 :: c2 :: c3 :: rest =>
      match b64Index c0, b64Index c1 with
      | some n0, some n1 =>
        if c2 = '=' then
          if c3 = '=' ∧ rest = [] then some [n0 * 4 + n1 / 16] else none
        else
          match b64Index c2 with
          | some n2 =>
            if c3 = '=' then
              if rest = [] then some [n0 * 4 + n1 / 16, n1 % 16 * 16 + n2 / 4] else none
            else
              match b64Index c3, decodeGroups rest with
              | some n3, some tail =>
                  some ((n0 * 4 + n1 / 16) :: (n1 % 16 * 16 + n2 / 4) :: (n2 % 4 * 64 + n3) :: tail)
              | _, _ => none
          | none => none
      | _, _ => none
  | _ => none

/-- Go `base64.StdEncoding.DecodeString`, returning bytes. -/
def decodeString (s : String) : Option (List Nat) := decodeGroups s.toList

theorem b64Index_b64Char : ∀ n < 64, b64Index (b64Char n) = some n := by decide

theorem b64Char_ne_pad : ∀ n < 64, b64Char n ≠ '=' := by decide

theorem decodeGroups_encodeGroups :
    ∀ bs : List Nat, (∀ b ∈ bs, b < 256) → decodeGroups (encodeGroups bs) = some bs := by
  intro bs
  induction bs using encodeGroups.induct with
  | case1 => intro _; simp [encodeGroups, decodeGroups]
  | case2 b0 =>
    intro h
    have hb0 : b0 < 256 := h b0 (by simp)
    have e0 := b64Index_b64Char (b0 / 4) (by omega)
    have e1 := b64Index_b64Char (b0 % 4 * 16) (by omega)
    simp only [encodeGroups, decodeGroups, e0, e1, reduceIte, and_self,
      Option.some.injEq, List.cons.injEq, and_true]
    omega
  | case3 b0 b1 =>
    intro h
    have hb0 : b0 < 256 := h b0 (by simp)
    have hb1 : b1 < 256 := h b1 (by simp)
    have e0 := b64Index_b64Char (b0 / 4) (by omega)
    have e1 := b64Index_b64Char (b0 % 4 * 16 + b1 / 16) (by omega)
    have e2 := b64Index_b64Char (b1 % 16 * 4) (by omega)
    have ne2 := b64Char_ne_pad (b1 % 16 * 4) (by omega)
    simp only [encodeGroups, decodeGroups, e0, e1, e2, if_neg ne2, reduceIte,
      Option.some.injEq, List.cons.injEq, and_true]
    omega
  | case4 b0 b1 b2 rest ih =>
    intro h
    have hb0 : b0 < 256 := h b0 (by simp)
    have hb1 : b1 < 256 := h b1 (by simp)
    have hb2 : b2 < 256 := h b2 (by simp)
    have htail : decodeGroups (encodeGroups rest) = some rest :=
      ih (fun b hb => h b (by simp [hb]))
    have e0 := b64Index_b64Char (b0 / 4) (by omega)
    have e1 := b64Index_b64Char (b0 % 4 * 16 + b1 / 16) (by omega)
    have e2 := b64Index_b64Char (b1 % 16 * 4 + b2 / 64) (by omega)
    have e3 := b64Index_b64Char (b2 % 64) (by omega)
    have ne2 := b64Char_ne_pad (b1 % 16 * 4 + b2 / 64) (by omega)
    have ne3 := b64Char_ne_pad (b2 % 64) (by omega)
    simp only [encodeGroups, decodeGroups, e0, e1, e2, e3, if_neg ne2, if_neg ne3,
      htail, Option.some.injEq, List.cons.injEq, and_true]
    omega

/-- Base64 round-trip: decoding an encoded byte sequence recovers it. -/
theorem decodeString_encodeToString (bs : List Nat) (h : ∀ b ∈ bs, b < 256) :
    decodeString (encodeToString bs) = some bs := by
  show decodeGroups (String.mk (encodeGroups bs)).toList = some bs
  exact decodeGroups_encodeGroups bs h

/-- Go `Config` (config.go:12): credential and endpoint bundle. -/
structure Config where
  ServerUrl : String
  PublicKey : String
  SecretKey : String
  Base64Token : String
deriving DecidableEq, Repr

/-- Go `validateConfig` (config.go:98): required fields are checked in
order (server URL, then public key, then secret key) and the first
failure wins; on success the token is recomputed when both keys are
present.  The Go function mutates the config through a pointer, so the
embedding returns the updated config. -/
def validateConfig (config : Config) : Except String Config :=
  if config.ServerUrl = "" then .error "LANGFUSE_SERVER_URL is required"
  else if config.PublicKey = "" then .error "LANGFUSE_PUBLIC_KEY is required"
  else if config.SecretKey = "" then .error "LANGFUSE_SECRET_KEY is required"
  else if config.PublicKey ≠ "" ∧ config.SecretKey ≠ "" then
    .ok { config with
          Base64Token := encodeToString (strBytes (config.PublicKey ++ ":" ++ config.SecretKey)) }
  else .ok config

/-- Go `NewConfig` (config.go:33): builds the config, derives the token
when both keys are present, then validates. -/
def NewConfig (serverUrl publicKey secretKey : String) : Except String Config :=
  let cfg : Config :=
    { ServerUrl := serverUrl, PublicKey := publicKey, SecretKey := secretKey, Base64Token := "" }
  let cfg :=
    if publicKey ≠ "" ∧ secretKey ≠ "" then
      { cfg with Base64Token := encodeToString (strBytes (publicKey ++ ":" ++ secretKey)) }
    else cfg
  validateConfig cfg

/-- C4: for every triple of non-empty strings, `NewConfig` succeeds, the
resulting `Base64Token` is `base64(publicKey ++ ":" ++ secretKey)`, and
base64-decoding the token yields back the UTF-8 bytes of
`publicKey ++ ":" ++ secretKey` exactly. -/
theorem newConfig_token_roundtrip (serverUrl publicKey secretKey : String)
    (hs : serverUrl ≠ "") (hp : publicKey ≠ "") (hk : secretKey ≠ "") :
    ∃ cfg, NewConfig serverUrl publicKey secretKey = .ok cfg ∧
      cfg.Base64Token = encodeToString (strBytes (publicKey ++ ":" ++ secretKey)) ∧
      decodeString cfg.Base64Token = some (strBytes (publicKey ++ ":" ++ secretKey)) := by
  refine ⟨{ ServerUrl := serverUrl, PublicKey := publicKey, SecretKey := secretKey,
            Base64Token := encodeToString (strBytes (publicKey ++ ":" ++ secretKey)) }, ?_, rfl,
          decodeString_encodeToString _ (strBytes_lt _)⟩
  unfold NewConfig validateConfig
  simp [hs, hp, hk]

/-- Witness for C4 at a concrete credential triple. -/
theorem newConfig_token_roundtrip_witness :
    ∃ cfg, NewConfig "https://cloud.langfuse.com" "pk-lf-test-123" "sk-lf-test-456" = .ok cfg ∧
      cfg.Base64Token = encodeToString (strBytes ("pk-lf-test-123" ++ ":" ++ "sk-lf-test-456")) ∧
      decodeString cfg.Base64Token =
        some (strBytes ("pk-lf-test-123" ++ ":" ++ "sk-lf-test-456")) :=
  newConfig_token_roundtrip _ _ _ (by decide) (by decide) (by decide)

/-- C5: configuration validation checks the three required fields in a
fixed short-circuit order and the first failure wins: empty server URL
fails naming the server URL regardless of the other fields; then empty
public key fails naming the public key; then empty secret key fails
naming the secret key. -/
theorem validateConfig_first_failure (cfg : Config) :
    (cfg.ServerUrl = "" →
      validateConfig cfg = .error "LANGFUSE_SERVER_URL is required") ∧
    (cfg.ServerUrl ≠ "" → cfg.PublicKey = "" →
      validateConfig cfg = .error "LANGFUSE_PUBLIC_KEY is required") ∧
    (cfg.ServerUrl ≠ "" → cfg.PublicKey ≠ "" → cfg.SecretKey = "" →
      validateConfig cfg = .error "LANGFUSE_SECRET_KEY is required") :=
  ⟨fun h => by simp [validateConfig, h],
   fun h1 h2 => by simp [validateConfig, h1, h2],
   fun h1 h2 h3 => by simp [validateConfig, h1, h2, h3]⟩

/-- Witness for C5 at concrete configurations exercising each branch. -/
theorem validateConfig_first_failure_witness :
    validateConfig { ServerUrl := "", PublicKey := "pk", SecretKey := "sk", Base64Token := "" }
      = .error "LANGFUSE_SERVER_URL is required" ∧
    validateConfig { ServerUrl := "https://x", PublicKey := "", SecretKey := "sk", Base64Token := "" }
      = .error "LANGFUSE_PUBLIC_KEY is required" ∧
    validateConfig { ServerUrl := "https://x", PublicKey := "pk", SecretKey := "", Base64Token := "" }
      = .error "LANGFUSE_SECRET_KEY is required" :=
  ⟨(validateConfig_first_failure _).1 rfl,
   (validateConfig_first_failure _).2.1 (by decide) rfl,
   (validateConfig_first_failure _).2.2 (by decide) (by decide) rfl⟩

/-- Lower-case hexadecimal digit, used by Go `encoding/json` escapes. -/
def lowerHexChar (n : Nat) : Char := "0123456789abcdef".toList.getD n '0'

/-- Upper-case hexadecimal digit, used by Go `net/url` percent-escapes. -/
def upperHexChar (n : Nat) : Char := "0123456789ABCDEF".toList.getD n '0'

/-- JSON values: the terms of Go `encoding/json` reachable in this
client (`interface\x7b\x7d` payloads, typed structs, string slices). -/
inductive Json where
  | null
  | bool (b : Bool)
  | num (n : Int)
  | str (s : String)
  | arr (elems : List Json)
  | obj (fields : List (String × Json))
deriving Repr

/-- Go `encoding/json` escaping of one character inside a string literal
(HTML escaping on, as `json.Marshal` defaults to). -/
def jsonEscapeChar (c : Char) : List Char :=
  if c = '"' then ['\\', '"']
  else if c = '\\' then ['\\', '\\']
  else if c = '\n' then ['\\', 'n']
  else if c = '\r' then ['\\', 'r']
  else if c = '\t' then ['\\', 't']
  else if c = '<' then "\\u003c".toList
  else if c = '>' then "\\u003e".toList
  else if c = '&' then "\\u0026".toList
  else if c.toNat < 32 then
    ['\\', 'u', '0', '0', lowerHexChar (c.toNat / 16), lowerHexChar (c.toNat % 16)]
  else [c]

/-- A JSON string literal with Go's escaping. -/
def jsonQuote (s : String) : String :=
  String.mk ('"' :: (s.toList.map jsonEscapeChar).flatten ++ ['"'])

mutual

/-- Go `json.Marshal`: compact rendering, object keys in struct order. -/
def Json.render : Json → String
  | .null => "null"
  | .bool true => "true"
  | .bool false => "false"
  | .num n => toString n
  | .str s => jsonQuote s
  | .arr elems => "[" ++ Json.renderElems elems ++ "]"
  | .obj fields => "\x7b" ++ Json.renderFields fields ++ "\x7d"

/-- Comma-separated rendering of array elements. -/
def Json.renderElems : List Json → String
  | [] => ""
  | [j] => j.render
  | j :: rest => j.render ++ "," ++ Json.renderElems rest

/-- Comma-separated rendering of object members. -/
def Json.renderFields : List (String × Json) → String
  | [] => ""
  | [(k, v)] => jsonQuote k ++ ":" ++ v.render
  | (k, v) :: rest => jsonQuote k ++ ":" ++ v.render ++ "," ++ Json.renderFields rest

end

/-- Outcome of one attempt on the wire: a response with status code and
body, or a network-level failure. -/
inductive HttpResult where
  | resp (status : Nat) (body : String)
  | netErr (msg : String)
deriving DecidableEq, Repr

/-- A server behaviour: the outcome the attempt with the given 0-based
index receives. -/
def Server : Type := Nat → HttpResult

/-- The retry policy installed at client.go:47,
`retryablehttp.DefaultRetryPolicy`.  The dependency's source is not part
of this repository; the policy is modelled from the repository's own
documentation of it (client.go:46 and client.go:89: "retries on 5xx and
network errors"). -/
def defaultShouldRetry : HttpResult → Bool
  | .netErr _ => true
  | .resp status _ => 500 ≤ status && status ≤ 599

/-- The retry loop of `retryablehttp.Client.Do`: `attemptLoop server i
remain` performs the attempt with index `i` with up to `remain` further
retries allowed after it.  It returns the last attempt's outcome, whether
the policy still asked to retry when the budget ran out (retries
exhausted), and the number of attempts performed. -/
def attemptLoop (server : Server) (i : Nat) : Nat → HttpResult × Bool × Nat
  | 0 =>
      let r := server i
      (r, defaultShouldRetry r, 1)
  | remain + 1 =>
      let r := server i
      if defaultShouldRetry r then
        let rec2 := attemptLoop server (i + 1) remain
        (rec2.1, rec2.2.1, rec2.2.2 + 1)
      else (r, false, 1)

/-- Result of the retry-capable transport. -/
inductive TransportOutcome where
  | resp (status : Nat) (body : String)
  | err (msg : String)
deriving DecidableEq, Repr

/-- `retryablehttp.Client.Do` with `RetryMax = retryMax`: a response the
policy accepts is returned as such; when the retry budget is exhausted
the transport drops the last response and returns the "giving up" error
(the repository's own test `TestClient_Do_ServerError` documents this
shape), wrapping the last network error when there was one. -/
def retryableDo (server : Server) (retryMax : Nat) (method url : String) :
    TransportOutcome × Nat :=
  let out := attemptLoop server 0 retryMax
  let n := out.2.2
  if out.2.1 then
    match out.1 with
    | .netErr m =>
        (.err (method ++ " " ++ url ++ " giving up after " ++ toString n ++ " attempt(s): " ++ m), n)
    | .resp _ _ =>
        (.err (method ++ " " ++ url ++ " giving up after " ++ toString n ++ " attempt(s)"), n)
  else
    match out.1 with
    | .resp s b => (.resp s b, n)
    | .netErr m => (.err m, n)

/-- Go package constants (client.go:13). -/
def Version : String := "v1.0.0"

/-- client.go:17. -/
def defaultUserAgent : String := "go-langfuse-client" ++ "/" ++ Version

/-- client.go:18. -/
def defaultMediaType : String := "*/*"

/-- Go `Client` (client.go:22), restricted to the fields the executor
reads: the retry budget (`retryableClient.RetryMax`), the base URL and
the derived Basic-Auth token. -/
structure Client where
  retryMax : Nat
  baseUrl : String
  base64Token : String
deriving DecidableEq, Repr

/-- The retry budget installed by `NewClient` and `NewClientWithConfig`
(client.go:41 and client.go:84): `RetryMax = 3`, i.e. three retries after
the first attempt. -/
def defaultRetryMax : Nat := 3

/-- Go `NewClientWithConfig` (client.go:80), restricted to the executor
state. -/
def NewClientWithConfig (cfg : Config) : Client :=
  { retryMax := defaultRetryMax, baseUrl := cfg.ServerUrl, base64Token := cfg.Base64Token }

/-- The outbound request as built by `DoWithBody` (client.go:126): the
method, the full URL (base URL concatenated with the uri), the headers
set at client.go:136-139 in that order, and the serialized body when a
payload was given. -/
structure Request where
  method : String
  url : String
  headers : List (String × String)
  body : Option String
deriving DecidableEq, Repr

/-- Result of `Client.DoWithBody`: the raw response body on success, or
the error message built on the failing path. -/
inductive ExecResult where
  | success (body : String)
  | failure (msg : String)
deriving DecidableEq, Repr

/-- Observable trace of one `DoWithBody` call: the request dispatched to
the retryable transport (`none` when the call failed before any network
activity), the number of attempts that reached the wire, and the
result. -/
structure ExecTrace where
  sentRequest : Option Request
  attempts : Nat
  result : ExecResult
deriving DecidableEq, Repr

/-- Go `Client.DoWithBody` (client.go:112): the empty method defaults to
GET; a present payload is serialized to JSON; an empty token fails before
any network call; the four headers are set unconditionally
(client.go:136-139); the request goes through the retryable transport and
the outcome is classified: transport errors are wrapped, 4xx becomes a
client error with status and literal body, remaining 5xx a server error
with status and body, anything else succeeds with the raw body. -/
def doWithBody (c : Client) (server : Server) (method uri : String)
    (payload : Option Json) : ExecTrace :=
  let method := if method = "" then "GET" else method
  let url := c.baseUrl ++ uri
  if c.base64Token = "" then
    { sentRequest := none, attempts := 0, result := .failure "Base64 token is required" }
  else
    let req : Request :=
      { method := method, url := url,
        headers := [("Authorization", "Basic " ++ c.base64Token),
                    ("Content-Type", "application/json"),
                    ("Accept", defaultMediaType),
                    ("User-Agent", defaultUserAgent)],
        body := payload.map Json.render }
    let out := retryableDo server c.retryMax method url
    match out.1 with
    | .err m =>
        { sentRequest := some req, attempts := out.2,
          result := .failure ("error making request: " ++ m) }
    | .resp status body =>
        if 400 ≤ status ∧ status < 500 then
          { sentRequest := some req, attempts := out.2,
            result := .failure ("client error " ++ toString status ++ ": " ++ body) }
        else if 500 ≤ status then
          { sentRequest := some req, attempts := out.2,
            result := .failure ("server error " ++ toString status ++ ": " ++ body) }
        else
          { sentRequest := some req, attempts := out.2, result := .success body }

/-- Go `Client.Do` (client.go:108): delegates to `DoWithBody` with a nil
payload. -/
def Client.Do (c : Client) (server : Server) (method uri : String) : ExecTrace :=
  doWithBody c server method uri none

theorem attemptLoop_no_retry (server : Server) (i remain : Nat)
    (h : defaultShouldRetry (server i) = false) :
    attemptLoop server i remain = (server i, false, 1) := by
  cases remain <;> simp [attemptLoop, h]

theorem attemptLoop_all_retry (server : Server)
    (hsrv : ∀ i, defaultShouldRetry (server i) = true) :
    ∀ remain i, attemptLoop server i remain = (server (i + remain), true, remain + 1) := by
  intro remain
  induction remain with
  | zero => intro i; simp [attemptLoop, hsrv]
  | succ n ihn =>
    intro i
    simp only [attemptLoop, hsrv, if_true, ihn (i + 1)]
    have harg : i + 1 + n = i + (n + 1) := by omega
    rw [harg]

/-- C1: every 4xx response obtained by the executor is classified as a
client error carrying the status code and the literal response body, is
never retried, and is returned immediately: exactly one request is
made.  The retry policy never triggers on 4xx, so only the first
attempt's response matters. -/
theorem clientError_4xx_no_retry (c : Client) (server : Server)
    (method uri : String) (payload : Option Json) (s : Nat) (b : String)
    (htok : c.base64Token ≠ "") (h4 : 400 ≤ s) (h5 : s ≤ 499)
    (hsrv : server 0 = .resp s b) :
    (doWithBody c server method uri payload).result =
        .failure ("client error " ++ toString s ++ ": " ++ b) ∧
    (doWithBody c server method uri payload).attempts = 1 := by
  have hsr : defaultShouldRetry (server 0) = false := by
    rw [hsrv]; simp only [defaultShouldRetry, Bool.and_eq_false_iff, decide_eq_false_iff_not]
    omega
  have hal := attemptLoop_no_retry server 0 c.retryMax hsr
  have h45 : 400 ≤ s ∧ s < 500 := ⟨h4, by omega⟩
  constructor <;>
    simp [doWithBody, retryableDo, hal, hsrv, htok, h45]

/-- Witness for C1: a 401 response with body "unauthorized" yields the
client error containing status 401 and the body, with exactly one
request made. -/
theorem clientError_4xx_no_retry_witness :
    (doWithBody { retryMax := 3, baseUrl := "http://s", base64Token := "t" }
        (fun _ => .resp 401 "unauthorized") "GET" "/test" none).result =
      .failure ("client error " ++ toString 401 ++ ": " ++ "unauthorized") ∧
    (doWithBody { retryMax := 3, baseUrl := "http://s", base64Token := "t" }
        (fun _ => .resp 401 "unauthorized") "GET" "/test" none).attempts = 1 :=
  clientError_4xx_no_retry _ _ _ _ none 401 "unauthorized"
    (by decide) (by decide) (by decide) rfl

/-- C2 counterexample: with the default retry configuration
(`RetryMax = 3`, client.go:41) and a server answering 500 on every
attempt, the executor performs 4 requests — one initial attempt plus
three retries — not the 3 the claim fixes, and the surfaced error is the
transport's retry-exhaustion error, not a server-error classification
carrying status 500 and the body. -/
theorem serverError_attempt_count_counterexample :
    ¬ ((doWithBody { retryMax := defaultRetryMax, baseUrl := "http://s", base64Token := "t" }
          (fun _ => .resp 500 "internal server error") "GET" "/test" none).attempts = 3 ∧
       (doWithBody { retryMax := defaultRetryMax, baseUrl := "http://s", base64Token := "t" }
          (fun _ => .resp 500 "internal server error") "GET" "/test" none).result =
         .failure "server error 500: internal server error") := by
  decide

/-- C2 amended: under the default retry policy, when every attempt
returns status 500, the executor makes exactly `RetryMax + 1 = 4`
requests and then surfaces the transport's retry-exhaustion error
wrapped as "error making request: ... giving up after 4 attempt(s)";
the server-error classification with status and body is not reached on
this path. -/
theorem serverError_exhausts_retries (c : Client) (server : Server)
    (method uri : String) (payload : Option Json) (body : String)
    (hmax : c.retryMax = defaultRetryMax) (htok : c.base64Token ≠ "")
    (hsrv : ∀ i, server i = .resp 500 body) :
    (doWithBody c server method uri payload).attempts = 4 ∧
    (doWithBody c server method uri payload).result =
      .failure ("error making request: " ++ (if method = "" then "GET" else method) ++ " " ++
        (c.baseUrl ++ uri) ++ " giving up after 4 attempt(s)") := by
  have hretry : ∀ i, defaultShouldRetry (server i) = true := by
    intro i; rw [hsrv i]; simp [defaultShouldRetry]
  have hal := attemptLoop_all_retry server hretry 3 0
  have h4s : toString (4 : Nat) = "4" := rfl
  constructor <;>
    simp [doWithBody, retryableDo, hal, hmax, hsrv, htok, defaultRetryMax, h4s,
      String.append_assoc]

/-- Witness for C2's amended theorem at a concrete client and server. -/
theorem serverError_exhausts_retries_witness :
    (doWithBody { retryMax := defaultRetryMax, baseUrl := "http://s", base64Token := "t" }
        (fun _ => .resp 500 "ise") "GET" "/test" none).attempts = 4 ∧
    (doWithBody { retryMax := defaultRetryMax, baseUrl := "http://s", base64Token := "t" }
        (fun _ => .resp 500 "ise") "GET" "/test" none).result =
      .failure ("error making request: " ++ (if "GET" = "" then "GET" else "GET") ++ " " ++
        ("http://s" ++ "/test") ++ " giving up after 4 attempt(s)") :=
  serverError_exhausts_retries _ _ "GET" "/test" none "ise" rfl (by decide) (fun _ => rfl)

/-- C3: with an empty auth token, `DoWithBody` fails before any network
activity for every method, uri and payload: no request is dispatched,
zero attempts reach the wire, and an error is returned. -/
theorem missing_token_no_request (c : Client) (server : Server)
    (method uri : String) (payload : Option Json) (htok : c.base64Token = "") :
    (doWithBody c server method uri payload).sentRequest = none ∧
    (doWithBody c server method uri payload).attempts = 0 ∧
    (doWithBody c server method uri payload).result =
      .failure "Base64 token is required" := by
  refine ⟨?_, ?_, ?_⟩ <;> simp [doWithBody, htok]

/-- Witness for C3 at a concrete call. -/
theorem missing_token_no_request_witness :
    (doWithBody { retryMax := 3, baseUrl := "http://s", base64Token := "" }
        (fun _ => .resp 200 "ok") "GET" "/test" none).sentRequest = none ∧
    (doWithBody { retryMax := 3, baseUrl := "http://s", base64Token := "" }
        (fun _ => .resp 200 "ok") "GET" "/test" none).attempts = 0 ∧
    (doWithBody { retryMax := 3, baseUrl := "http://s", base64Token := "" }
        (fun _ => .resp 200 "ok") "GET" "/test" none).result =
      .failure "Base64 token is required" :=
  missing_token_no_request _ _ _ _ none rfl

/-- C6 counterexample: a request built by `DoWithBody` with a nil
payload still carries `Content-Type: application/json` — client.go:137
sets the header unconditionally (and the repository's own test
`TestClient_Do_Success` asserts it on a body-less GET), refuting the
claim that no Content-Type header is attached for nil payloads. -/
theorem contentType_nil_payload_counterexample :
    ∃ req, (doWithBody { retryMax := 3, baseUrl := "http://s", base64Token := "t" }
        (fun _ => .resp 200 "ok") "GET" "/test" none).sentRequest = some req ∧
      ("Content-Type", "application/json") ∈ req.headers := by
  refine ⟨_, rfl, ?_⟩
  decide

/-- C6 amended: on every call with a non-empty token the executor
dispatches a request carrying exactly the headers Authorization,
Content-Type (regardless of whether a payload is present), Accept and
User-Agent, in the order client.go:136-139 sets them. -/
theorem headers_on_every_request (c : Client) (server : Server)
    (method uri : String) (payload : Option Json) (htok : c.base64Token ≠ "") :
    (doWithBody c server method uri payload).sentRequest =
      some { method := if method = "" then "GET" else method,
             url := c.baseUrl ++ uri,
             headers := [("Authorization", "Basic " ++ c.base64Token),
                         ("Content-Type", "application/json"),
                         ("Accept", defaultMediaType),
                         ("User-Agent", defaultUserAgent)],
             body := payload.map Json.render } := by
  simp only [doWithBody, if_neg htok]
  split <;> split_ifs <;> rfl

/-- Witness for C6's amended theorem: a nil-payload GET and a
with-payload PATCH both carry all four headers. -/
theorem headers_on_every_request_witness :
    (doWithBody { retryMax := 3, baseUrl := "http://s", base64Token := "t" }
        (fun _ => .resp 200 "ok") "GET" "/test" none).sentRequest =
      some { method := if "GET" = "" then "GET" else "GET",
             url := "http://s" ++ "/test",
             headers := [("Authorization", "Basic " ++ "t"),
                         ("Content-Type", "application/json"),
                         ("Accept", defaultMediaType),
                         ("User-Agent", defaultUserAgent)],
             body := (none : Option Json).map Json.render } :=
  headers_on_every_request _ _ "GET" "/test" none (by decide)

/-- C10: the empty method defaults to GET at the `DoWithBody` interface,
and `Do` is `DoWithBody` with a nil payload. -/
theorem do_defaults_to_get (c : Client) (server : Server)
    (method uri : String) (payload : Option Json) :
    doWithBody c server "" uri payload = doWithBody c server "GET" uri payload ∧
    Client.Do c server method uri = doWithBody c server method uri none :=
  ⟨rfl, rfl⟩

/-- Go `net/url.shouldEscape` for the `encodePathSegment` mode, the one
`url.PathEscape` uses, on one byte: alphanumerics and the marks `-_.~`
stay; of the RFC 3986 reserved characters, `$ & + : = @` stay while
`/ ; , ?` are escaped; every other byte is escaped. -/
def pathSegShouldEscape (b : Nat) : Bool :=
  if (97 ≤ b ∧ b ≤ 122) ∨ (65 ≤ b ∧ b ≤ 90) ∨ (48 ≤ b ∧ b ≤ 57) then false
  else if b = 45 ∨ b = 95 ∨ b = 46 ∨ b = 126 then false
  else if b = 36 ∨ b = 38 ∨ b = 43 ∨ b = 58 ∨ b = 61 ∨ b = 64 then false
  else true

/-- One byte of `url.PathEscape` output: `%XX` with upper-case hex when
the byte must be escaped, the byte itself otherwise. -/
def escPathByte (b : Nat) : List Nat :=
  if pathSegShouldEscape b then
    [37, (upperHexChar (b / 16)).toNat, (upperHexChar (b % 16)).toNat]
  else [b]

/-- Go `url.PathEscape`, applied byte-wise to the UTF-8 bytes of the
string (prompts.go:59 and prompts.go:112 escape prompt names with it). -/
def pathEscape (s : String) : String :=
  String.mk (((strBytes s).map escPathByte).flatten.map Char.ofNat)

/-- Go `url.QueryEscape` byte classification (`encodeQueryComponent`
mode): alphanumerics and `-_.~` stay, everything else — including every
RFC 3986 reserved character — is escaped, with space becoming `+`. -/
def queryShouldEscape (b : Nat) : Bool :=
  if (97 ≤ b ∧ b ≤ 122) ∨ (65 ≤ b ∧ b ≤ 90) ∨ (48 ≤ b ∧ b ≤ 57) then false
  else if b = 45 ∨ b = 95 ∨ b = 46 ∨ b = 126 then false
  else true

/-- One byte of `url.QueryEscape` output. -/
def escQueryByte (b : Nat) : List Nat :=
  if b = 32 then [43]
  else if queryShouldEscape b then
    [37, (upperHexChar (b / 16)).toNat, (upperHexChar (b % 16)).toNat]
  else [b]

/-- Go `url.QueryEscape`. -/
def queryEscape (s : String) : String :=
  String.mk (((strBytes s).map escQueryByte).flatten.map Char.ofNat)

/-- Go `url.Values.Encode` on the parameters `GetPromptByName` can set:
`key=value` pairs, both sides query-escaped, joined by `&`, keys in
sorted order. -/
def encodeQueryParams (params : List (String × String)) : String :=
  String.intercalate "&" (params.map (fun kv => queryEscape kv.1 ++ "=" ++ queryEscape kv.2))

/-- prompts.go:57 `GetPromptByName`: the request uri, built from the
path-escaped name plus the optional `label` and `version` query
parameters (`url.Values.Encode` emits keys sorted, so label comes before
version). -/
def getPromptByNameUri (name label : String) (version : Option Int) : String :=
  let u := "/api/public/v2/prompts/" ++ pathEscape name
  let queryParams : List (String × String) :=
    (if label ≠ "" then [("label", label)] else []) ++
    (match version with
     | some v => [("version", toString v)]
     | none => [])
  if 0 < queryParams.length then u ++ "?" ++ encodeQueryParams queryParams else u

/-- prompts.go:110 `UpdatePromptVersionLabels`: the request uri with the
path-escaped name and the version number. -/
def updatePromptVersionLabelsUri (name : String) (version : Int) : String :=
  "/api/public/v2/prompts/" ++ pathEscape name ++ "/versions/" ++ toString version

/-- prompts.go:32 `UpdatePromptVersionLabelsRequest` as
`UpdatePromptVersionLabels` serializes it (prompts.go:115): one field
`newLabels` with no omitempty option, holding the label array. -/
def updatePromptVersionLabelsBody (newLabels : List String) : Json :=
  .obj [("newLabels", .arr (newLabels.map .str))]

theorem upperHexChar_ascii : ∀ n < 16, (upperHexChar n).toNat ≠ 32 ∧
    (upperHexChar n).toNat ≠ 47 ∧ (upperHexChar n).toNat ≠ 35 ∧
    (upperHexChar n).toNat ≠ 63 ∧ (upperHexChar n).toNat < 256 := by decide

theorem escPathByte_no_reserved (b : Nat) (hb : b < 256) :
    ∀ b2 ∈ escPathByte b, b2 ≠ 32 ∧ b2 ≠ 47 ∧ b2 ≠ 35 ∧ b2 ≠ 63 ∧ b2 < 256 := by
  intro b2 hb2
  by_cases hesc : pathSegShouldEscape b = true
  · simp only [escPathByte, hesc, if_true, List.mem_cons, List.not_mem_nil, or_false] at hb2
    rcases hb2 with rfl | rfl | rfl
    · refine ⟨by omega, by omega, by omega, by omega, by omega⟩
    · exact upperHexChar_ascii (b / 16) (by omega)
    · exact upperHexChar_ascii (b % 16) (by omega)
  · have hesc2 : pathSegShouldEscape b = false := by
      revert hesc; cases pathSegShouldEscape b <;> simp
    simp only [escPathByte, hesc2, Bool.false_eq_true, if_false, List.mem_cons,
      List.not_mem_nil, or_false] at hb2
    subst hb2
    have h32 : pathSegShouldEscape 32 = true := by decide
    have h47 : pathSegShouldEscape 47 = true := by decide
    have h35 : pathSegShouldEscape 35 = true := by decide
    have h63 : pathSegShouldEscape 63 = true := by decide
    refine ⟨?_, ?_, ?_, ?_, hb⟩ <;> rintro rfl <;> simp_all

theorem toNat_ofNat_byte : ∀ b < 256, (Char.ofNat b).toNat = b := by decide

/-- C7: prompt names are percent-encoded in the request paths built by
`GetPromptByName` and `UpdatePromptVersionLabels`: the escaped name
never contains a raw space, slash, `#` or `?` (so the reserved
characters of the claim only survive percent-encoded), and the name
"path/to/prompt" produces the literal path segment
`prompts/path%2Fto%2Fprompt`, not a literal slash.  The executor
concatenates the uri onto the base URL verbatim (client.go:126), so the
encoding reaches the request line unchanged. -/
theorem prompt_name_percent_encoded (name : String) :
    (∀ c ∈ (pathEscape name).toList, c ≠ ' ' ∧ c ≠ '/' ∧ c ≠ '#' ∧ c ≠ '?') ∧
    getPromptByNameUri "path/to/prompt" "" none =
      "/api/public/v2/prompts/path%2Fto%2Fprompt" ∧
    updatePromptVersionLabelsUri "path/to/prompt" 1 =
      "/api/public/v2/prompts/path%2Fto%2Fprompt/versions/1" := by
  refine ⟨?_, by decide, by decide⟩
  intro c hc
  simp only [pathEscape, String.toList, List.mem_map] at hc
  obtain ⟨b, hb, rfl⟩ := hc
  obtain ⟨l, hl, hbl⟩ := List.mem_flatten.mp hb
  obtain ⟨b0, hb0, rfl⟩ := List.mem_map.mp hl
  have hprops := escPathByte_no_reserved b0 (strBytes_lt name b0 hb0) b hbl
  have htn := toNat_ofNat_byte b hprops.2.2.2.2
  refine ⟨?_, ?_, ?_, ?_⟩ <;> intro heq <;>
    rw [heq] at htn <;> simp at htn <;> omega

/-- Witness for C7 at the concrete name "path/to/prompt" and the first
character of its escaped form. -/
theorem prompt_name_percent_encoded_witness :
    'p' ∈ (pathEscape "path/to/prompt").toList ∧
    ('p' ≠ ' ' ∧ 'p' ≠ '/' ∧ 'p' ≠ '#' ∧ 'p' ≠ '?') ∧
    getPromptByNameUri "path/to/prompt" "" none =
      "/api/public/v2/prompts/path%2Fto%2Fprompt" :=
  ⟨by decide, (prompt_name_percent_encoded "path/to/prompt").1 'p' (by decide),
   (prompt_name_percent_encoded "path/to/prompt").2.1⟩

/-- Is this JSON value the zero/empty value of a Go map field
(`nil` or a map of length zero)?  Drives `omitempty` for `Config`. -/
def jsonMapIsEmpty : Json → Bool
  | .null => true
  | .obj [] => true
  | _ => false

/-- Is this JSON value a nil Go interface?  Drives `omitempty` for the
untyped `Prompt` field. -/
def Json.isNull : Json → Bool
  | .null => true
  | _ => false

/-- Go `Prompt` (prompts.go:13).  The untyped `interface\x7b\x7d` fields
(`Config`, the polymorphic `Prompt` contents) hold JSON values; Go zero
values are `null` for them, `""` for strings, `0` for the version and
the empty list for slices. -/
structure Prompt where
  Config : Json
  CommitMessage : String
  Labels : List String
  Name : String
  Prompt : Json
  Version : Int
  Tags : List String
  type : String
deriving Repr

/-- Go `ChatMessage` (prompts.go:25). -/
structure ChatMessage where
  type : String
  Role : String
  Content : String
deriving DecidableEq, Repr

/-- `json.Marshal` of a `ChatMessage`: fields in struct order under
their tags. -/
def encodeChatMessage (m : ChatMessage) : Json :=
  .obj [("type", .str m.type), ("role", .str m.Role), ("content", .str m.Content)]

/-- `json.Marshal` of a `Prompt`: fields in struct order under the tags
of prompts.go:14-21, honouring each field's `omitempty` option (`name`
and `type` carry no omitempty and are always present). -/
def encodePrompt (p : Prompt) : Json :=
  .obj ((if jsonMapIsEmpty p.Config then [] else [("config", p.Config)]) ++
        (if p.CommitMessage = "" then [] else [("commitMessage", .str p.CommitMessage)]) ++
        (if p.Labels.isEmpty then [] else [("labels", .arr (p.Labels.map .str))]) ++
        [("name", .str p.Name)] ++
        (if p.Prompt.isNull then [] else [("prompt", p.Prompt)]) ++
        (if p.Version = 0 then [] else [("version", .num p.Version)]) ++
        (if p.Tags.isEmpty then [] else [("tags", .arr (p.Tags.map .str))]) ++
        [("type", .str p.type)])

/-- Field access on a JSON object by key. -/
def Json.getField : Json → String → Option Json
  | .obj fields, k => fields.lookup k
  | _, _ => none

/-- `json.Unmarshal` of a JSON value into a Go string: strings decode to
themselves, anything else leaves the zero value. -/
def Json.asString : Json → String
  | .str s => s
  | _ => ""

/-- `json.Unmarshal` into a `[]string`. -/
def Json.asStringList : Json → List String
  | .arr elems => elems.map Json.asString
  | _ => []

/-- `json.Unmarshal` into a Go int. -/
def Json.asInt : Json → Int
  | .num n => n
  | _ => 0

/-- Go `json.Unmarshal` into a `Prompt`: each field is read by its tag
name, keeping the Go zero value when the key is absent or null. -/
def decodePrompt (j : Json) : Prompt :=
  { Config := (j.getField "config").getD .null
    CommitMessage := ((j.getField "commitMessage").getD .null).asString
    Labels := ((j.getField "labels").getD .null).asStringList
    Name := ((j.getField "name").getD .null).asString
    Prompt := (j.getField "prompt").getD .null
    Version := ((j.getField "version").getD .null).asInt
    Tags := ((j.getField "tags").getD .null).asStringList
    type := ((j.getField "type").getD .null).asString }

theorem asStringList_map_str (l : List String) :
    Json.asStringList (.arr (l.map .str)) = l := by
  simp only [Json.asStringList, List.map_map]
  exact List.map_id'' (fun s => rfl) l

/-- C8: the update-labels request built with an empty label list
serializes with the field `newLabels` present and equal to the empty
JSON array, not omitted (the body depends only on the labels, so this
covers every prompt name and version), and decoding a successful
response echoing an empty label array yields a prompt whose label list
has length zero. -/
theorem update_labels_empty_roundtrip :
    (updatePromptVersionLabelsBody []).render = "\x7b\"newLabels\":[]\x7d" ∧
    (decodePrompt (.obj [("name", .str "test-prompt"), ("type", .str "chat"),
        ("version", .num 1), ("labels", .arr []),
        ("tags", .arr [.str "test"])])).Labels.length = 0 :=
  ⟨rfl, rfl⟩

/-- C9: encoding a chat-type prompt record — type "chat", a name, a list
of role-tagged chat messages in the `Prompt` field, labels, tags and a
commit message — to JSON and decoding it back yields a record identical
to the original, every field preserved. -/
theorem chat_prompt_json_roundtrip (p : Prompt) (msgs : List ChatMessage)
    (htype : p.type = "chat")
    (hprompt : p.Prompt = .arr (msgs.map encodeChatMessage))
    (hconfig : p.Config = .null)
    (hcm : p.CommitMessage ≠ "") (hlab : p.Labels ≠ []) (htags : p.Tags ≠ []) :
    decodePrompt (encodePrompt p) = p := by
  obtain ⟨cfg, cm, labs, nm, pr, ver, tags, ty⟩ := p
  simp only at htype hprompt hconfig hcm hlab htags
  subst htype hprompt hconfig
  have hlabe : labs.isEmpty = false := by
    cases labs with
    | nil => exact absurd rfl hlab
    | cons a l => rfl
  have htagse : tags.isEmpty = false := by
    cases tags with
    | nil => exact absurd rfl htags
    | cons a l => rfl
  by_cases hv : ver = 0 <;>
    simp [encodePrompt, decodePrompt, Json.getField, Json.isNull, jsonMapIsEmpty,
      hcm, hlabe, htagse, hv, List.lookup, Json.asString, Json.asInt,
      asStringList_map_str]

/-- Witness for C9 at a concrete two-message chat prompt. -/
theorem chat_prompt_json_roundtrip_witness :
    decodePrompt (encodePrompt
      { Config := .null, CommitMessage := "Initial version",
        Labels := ["production", "v1"], Name := "test-chat-prompt",
        Prompt := .arr (List.map encodeChatMessage
          [{ type := "chatmessage", Role := "system", Content := "You are a helpful assistant." },
           { type := "chatmessage", Role := "user", Content := "Hello!" }]),
        Version := 0, Tags := ["chat", "test"], type := "chat" }) =
      { Config := .null, CommitMessage := "Initial version",
        Labels := ["production", "v1"], Name := "test-chat-prompt",
        Prompt := .arr (List.map encodeChatMessage
          [{ type := "chatmessage", Role := "system", Content := "You are a helpful assistant." },
           { type := "chatmessage", Role := "user", Content := "Hello!" }]),
        Version := 0, Tags := ["chat", "test"], type := "chat" } :=
  chat_prompt_json_roundtrip _
    [{ type := "chatmessage", Role := "system", Content := "You are a helpful assistant." },
     { type := "chatmessage", Role := "user", Content := "Hello!" }]
    rfl rfl rfl (by decide) (by decide) (by decide)

end Langfuse
